import Mathlib

/-
  Shallow embedding of the rental-lifecycle engine of the `testelocadora`
  repository (src/server.js; src/unnamed/part_000 is a near-identical variant
  with the same route bodies).

  The Azure table store is modelled as three in-memory collections keyed by
  rowKey (partition keys are constant per table).  `createEntity` fails when
  the key already exists (HTTP 409, surfaced by the handlers as a 500);
  `updateEntity(..., "Merge")` overwrites exactly the fields present in the
  written object; `getEntity` throws when the key is absent (modelled as
  `Option`).  Request-body string fields are modelled as `Option String`
  (`none` = the JSON field is absent/undefined); JavaScript truthiness on
  such a field (`!placaVeiculo`) holds when the field is absent or the empty
  string, which `falsy` captures.  `parseInt`/`parseFloat` results are taken
  as already-parsed parameters (`Int`/`Rat`); no claim depends on numeric
  parsing.  Fresh `Date.now().toString()` row keys are passed as explicit
  `newId` parameters.
-/

set_option maxHeartbeats 1000000

namespace Locadora

/-- Outcome of a route handler, abstracting the HTTP response:
`ok` = 200 `{sucesso:true}`, `badRequest` = 400, `notFound` = 404,
`serverError` = 500. -/
inductive Resp where
  | ok
  | badRequest (mensagem : String)
  | notFound
  | serverError
  deriving Repr, DecidableEq

/-- A row of the vehicle table (`tabelaVeiculos`); `placa` is the rowKey. -/
structure Veiculo where
  placa : String
  marca : String
  modelo : String
  ano : Int
  urlImagem : String
  precoDiaria : Rat
  disponivel : Bool
  deriving Repr, DecidableEq

/-- A row of the client table (`tabelaClientes`); `id` is the rowKey. -/
structure Cliente where
  id : String
  nome : String
  email : String
  telefone : String
  deriving Repr, DecidableEq

/-- A row of the rental table (`tabelaLocacoes`); `id` is the rowKey. -/
structure Locacao where
  id : String
  placaVeiculo : String
  marca : String
  modelo : String
  clienteId : String
  dataInicio : Option String
  dataFim : Option String
  valor : Rat
  status : String
  deriving Repr, DecidableEq

/-- The three table collections, in store scan order. -/
structure Estado where
  veiculos : List Veiculo
  clientes : List Cliente
  locacoes : List Locacao
  deriving Repr, DecidableEq

/-- The empty store (all three tables freshly created). -/
def estadoInicial : Estado := ⟨[], [], []⟩

/-- JavaScript truthiness test on an optional request-body string field:
`!x` is true when the field is absent (`undefined`) or the empty string. -/
def falsy : Option String → Bool
  | none => true
  | some s => s == ""

/-- getEntity on the vehicle table: lookup by rowKey (plate). -/
def getVeiculo (s : Estado) (placa : String) : Option Veiculo :=
  s.veiculos.find? (fun v => v.placa == placa)

/-- getEntity on the client table: lookup by rowKey. -/
def getCliente (s : Estado) (id : String) : Option Cliente :=
  s.clientes.find? (fun c => c.id == id)

/-- getEntity on the rental table: lookup by rowKey. -/
def getLocacao (s : Estado) (id : String) : Option Locacao :=
  s.locacoes.find? (fun l => l.id == id)

/-- createEntity on the vehicle table: fails (409) when the rowKey exists. -/
def createVeiculo (s : Estado) (v : Veiculo) : Option Estado :=
  if (getVeiculo s v.placa).isSome then none
  else some { s with veiculos := s.veiculos ++ [v] }

/-- createEntity on the client table: fails (409) when the rowKey exists. -/
def createCliente (s : Estado) (c : Cliente) : Option Estado :=
  if (getCliente s c.id).isSome then none
  else some { s with clientes := s.clientes ++ [c] }

/-- createEntity on the rental table: fails (409) when the rowKey exists. -/
def createLocacao (s : Estado) (l : Locacao) : Option Estado :=
  if (getLocacao s l.id).isSome then none
  else some { s with locacoes := s.locacoes ++ [l] }

/-- updateEntity(..., "Merge") writing only `disponivel` on the vehicle row
with the given rowKey (all other fields left untouched). -/
def setVeiculoDisponivel (s : Estado) (placa : String) (b : Bool) : Estado :=
  { s with veiculos :=
      s.veiculos.map (fun v => if v.placa == placa then { v with disponivel := b } else v) }

/-- updateEntity(..., "Merge") writing only `status` on the rental row with
the given rowKey. -/
def setLocacaoStatus (s : Estado) (id st : String) : Estado :=
  { s with locacoes :=
      s.locacoes.map (fun l => if l.id == id then { l with status := st } else l) }

/-- deleteEntity on the client table (rowKeys are unique in the store). -/
def deleteClienteRow (s : Estado) (id : String) : Estado :=
  { s with clientes := s.clientes.filter (fun c => !(c.id == id)) }

/-- The body value `disponivel` of POST /veiculos may arrive as a string
(multipart form) or a boolean (JSON); the handler stores
`disponivel === 'true' || disponivel === true`. -/
def parseDisponivel : String ⊕ Bool → Bool
  | .inl s => s == "true"
  | .inr b => b

/-- POST /veiculos: register a vehicle.  `anoParsed`/`precoParsed` stand for
`parseInt(ano)`/`parseFloat(precoDiaria)`.  A duplicate plate makes
`createEntity` throw, surfaced as a 500 with no write. -/
def cadastrarVeiculo (s : Estado) (placa marca modelo : String) (anoParsed : Int)
    (urlImagem : String) (precoParsed : Rat) (disponivelRaw : String ⊕ Bool) :
    Resp × Estado :=
  match createVeiculo s
      { placa := placa, marca := marca, modelo := modelo, ano := anoParsed,
        urlImagem := urlImagem, precoDiaria := precoParsed,
        disponivel := parseDisponivel disponivelRaw } with
  | none => (.serverError, s)
  | some s1 => (.ok, s1)

/-- POST /clientes: register a client; `newId` is the `Date.now()` rowKey. -/
def cadastrarCliente (s : Estado) (newId : String) (nome email telefone : String) :
    Resp × Estado :=
  match createCliente s { id := newId, nome := nome, email := email, telefone := telefone } with
  | none => (.serverError, s)
  | some s1 => (.ok, s1)

/-- PUT /clientes/:id: partial-merge update of a client; an absent body field
(undefined) is skipped by the merge. -/
def atualizarCliente (s : Estado) (id : String) (nome email telefone : Option String) :
    Resp × Estado :=
  match getCliente s id with
  | none => (.serverError, s)
  | some c =>
    (.ok, { s with clientes := s.clientes.map (fun c0 =>
        if c0.id == c.id then
          { c0 with nome := nome.getD c0.nome, email := email.getD c0.email,
                    telefone := telefone.getD c0.telefone }
        else c0) })

/-- The active-rental scan of DELETE /clientes/:id: any rental with matching
`clienteId` and status "ativa" (`List.any` short-circuits on the first hit). -/
def temLocacoesAtivas (s : Estado) (id : String) : Bool :=
  s.locacoes.any (fun l => l.clienteId == id && l.status == "ativa")

/-- DELETE /clientes/:id: 404 when the client is absent; 400 (conflict) when
an active rental references the client; otherwise the row is deleted. -/
def excluirCliente (s : Estado) (id : String) : Resp × Estado :=
  match getCliente s id with
  | none => (.notFound, s)
  | some _ =>
    if temLocacoesAtivas s id then
      (.badRequest "Não é possível excluir cliente com locações ativas", s)
    else
      (.ok, deleteClienteRow s id)

/-- Request body of POST /locacoes; `valorParsed` stands for
`parseFloat(valor)`. -/
structure LocacaoInput where
  placaVeiculo : Option String
  clienteId : Option String
  dataInicio : Option String
  dataFim : Option String
  valorParsed : Rat
  deriving Repr, DecidableEq

/-- The snapshot expression `veiculo?.marca || '---'`: the placeholder is used
when the vehicle is absent or the stored field is falsy (empty). -/
def snapshotCampo : Option String → String
  | none => "---"
  | some m => if m == "" then "---" else m

/-- POST /locacoes with failure injection on the vehicle-flag write
(`flagWriteOk = false` makes the `updateEntity` that flips `disponivel`
throw, which the handler's catch turns into a 500 *after* the rental row was
already persisted).  Steps, in source order: validate the two required
fields, look up the vehicle (absence tolerated), `createEntity` the rental
(status "ativa", brand/model snapshot), then if the vehicle was found mark
it unavailable via merge.  `entidadeLocacao` is the rental row the handler
builds and persists. -/
def entidadeLocacao (s : Estado) (inp : LocacaoInput) (newId : String) : Locacao :=
  { id := newId, placaVeiculo := inp.placaVeiculo.getD "",
    marca := snapshotCampo ((getVeiculo s (inp.placaVeiculo.getD "")).map (·.marca)),
    modelo := snapshotCampo ((getVeiculo s (inp.placaVeiculo.getD "")).map (·.modelo)),
    clienteId := inp.clienteId.getD "",
    dataInicio := inp.dataInicio, dataFim := inp.dataFim,
    valor := inp.valorParsed, status := "ativa" }

def criarLocacaoComFalha (s : Estado) (inp : LocacaoInput) (newId : String)
    (flagWriteOk : Bool) : Resp × Estado :=
  if falsy inp.placaVeiculo || falsy inp.clienteId then
    (.badRequest "Campos obrigatórios ausentes.", s)
  else
    match createLocacao s (entidadeLocacao s inp newId) with
    | none => (.serverError, s)
    | some s1 =>
      match getVeiculo s (inp.placaVeiculo.getD "") with
      | some v =>
        if flagWriteOk then (.ok, setVeiculoDisponivel s1 v.placa false)
        else (.serverError, s1)
      | none => (.ok, s1)

/-- POST /locacoes on the normal path (every store write succeeds). -/
def criarLocacao (s : Estado) (inp : LocacaoInput) (newId : String) : Resp × Estado :=
  criarLocacaoComFalha s inp newId true

/-- POST /cancelar-locacao: 500 when the rental is absent (getEntity throws);
otherwise the rental's status is merged to "cancelada", and then, when the
stored plate is truthy and the vehicle exists, the vehicle is merged back to
available (a missing vehicle is tolerated). -/
def cancelarLocacao (s : Estado) (locacaoId : String) : Resp × Estado :=
  match getLocacao s locacaoId with
  | none => (.serverError, s)
  | some locacao =>
    if locacao.placaVeiculo == "" then (.ok, setLocacaoStatus s locacao.id "cancelada")
    else
      match getVeiculo (setLocacaoStatus s locacao.id "cancelada") locacao.placaVeiculo with
      | some v =>
        (.ok, setVeiculoDisponivel (setLocacaoStatus s locacao.id "cancelada") v.placa true)
      | none => (.ok, setLocacaoStatus s locacao.id "cancelada")

/-- GET /veiculos/disponiveis: store-side filter `disponivel eq true`, then
the in-memory truthiness-guarded brand/model equality filters. -/
def veiculosDisponiveis (s : Estado) (marca modelo : Option String) : List Veiculo :=
  (s.veiculos.filter (fun v => v.disponivel)).filter
    (fun v => (falsy marca || v.marca == marca.getD "") &&
              (falsy modelo || v.modelo == modelo.getD ""))

/-- One mutating engine operation (one HTTP request against a mutating
route), with the store-generated row keys made explicit. -/
inductive Op where
  | cadastrarVeiculoOp (placa marca modelo : String) (anoParsed : Int)
      (urlImagem : String) (precoParsed : Rat) (disponivelRaw : String ⊕ Bool)
  | cadastrarClienteOp (newId nome email telefone : String)
  | atualizarClienteOp (id : String) (nome email telefone : Option String)
  | excluirClienteOp (id : String)
  | criarLocacaoOp (inp : LocacaoInput) (newId : String)
  | cancelarLocacaoOp (locacaoId : String)

/-- State transition of one operation (the response is discarded). -/
def applyOp (s : Estado) : Op → Estado
  | .cadastrarVeiculoOp placa marca modelo ano url preco disp =>
      (cadastrarVeiculo s placa marca modelo ano url preco disp).2
  | .cadastrarClienteOp newId nome email tel => (cadastrarCliente s newId nome email tel).2
  | .atualizarClienteOp id nome email tel => (atualizarCliente s id nome email tel).2
  | .excluirClienteOp id => (excluirCliente s id).2
  | .criarLocacaoOp inp newId => (criarLocacao s inp newId).2
  | .cancelarLocacaoOp lid => (cancelarLocacao s lid).2

/-- Run a sequence of operations from a given state. -/
def runFrom (s : Estado) (ops : List Op) : Estado := ops.foldl applyOp s

/-- Run a sequence of operations from the empty store. -/
def run (ops : List Op) : Estado := runFrom estadoInicial ops

/-- Structural well-formedness maintained by the engine on the rental table:
every rental stores a nonempty plate (creation requires a truthy
`placaVeiculo`) and a status in {"ativa", "cancelada"}, and row keys are
unique (`createEntity` rejects duplicates). -/
def WfEstado (s : Estado) : Prop :=
  (∀ l ∈ s.locacoes, l.placaVeiculo ≠ "" ∧ (l.status = "ativa" ∨ l.status = "cancelada")) ∧
  (s.locacoes.map Locacao.id).Nodup

theorem getVeiculo_eq_some {s : Estado} {placa : String} {v : Veiculo}
    (h : getVeiculo s placa = some v) : v ∈ s.veiculos ∧ v.placa = placa := by
  refine ⟨List.mem_of_find?_eq_some h, ?_⟩
  have := List.find?_some h
  simpa using this

theorem getVeiculo_eq_none {s : Estado} {placa : String}
    (h : getVeiculo s placa = none) : ∀ v ∈ s.veiculos, v.placa ≠ placa := by
  intro v hv
  have := List.find?_eq_none.mp h v hv
  simpa using this

theorem getLocacao_eq_some {s : Estado} {id : String} {l : Locacao}
    (h : getLocacao s id = some l) : l ∈ s.locacoes ∧ l.id = id := by
  refine ⟨List.mem_of_find?_eq_some h, ?_⟩
  have := List.find?_some h
  simpa using this

theorem getLocacao_eq_none {s : Estado} {id : String}
    (h : getLocacao s id = none) : ∀ l ∈ s.locacoes, l.id ≠ id := by
  intro l hl
  have := List.find?_eq_none.mp h l hl
  simpa using this

theorem getCliente_eq_some {s : Estado} {id : String} {c : Cliente}
    (h : getCliente s id = some c) : c ∈ s.clientes ∧ c.id = id := by
  refine ⟨List.mem_of_find?_eq_some h, ?_⟩
  have := List.find?_some h
  simpa using this

theorem getLocacao_setLocacaoStatus (s : Estado) (id st j : String) :
    getLocacao (setLocacaoStatus s id st) j =
      (getLocacao s j).map (fun l => if l.id == id then { l with status := st } else l) := by
  unfold getLocacao setLocacaoStatus
  rw [List.find?_map]
  have hp : ((fun l : Locacao => l.id == j) ∘
      (fun l => if l.id == id then { l with status := st } else l)) =
      (fun l : Locacao => l.id == j) := by
    funext l
    simp only [Function.comp_apply]
    split <;> rfl
  rw [hp]

theorem getVeiculo_setVeiculoDisponivel (s : Estado) (placa : String) (b : Bool) (q : String) :
    getVeiculo (setVeiculoDisponivel s placa b) q =
      (getVeiculo s q).map (fun v => if v.placa == placa then { v with disponivel := b } else v) := by
  unfold getVeiculo setVeiculoDisponivel
  rw [List.find?_map]
  have hp : ((fun v : Veiculo => v.placa == q) ∘
      (fun v => if v.placa == placa then { v with disponivel := b } else v)) =
      (fun v : Veiculo => v.placa == q) := by
    funext v
    simp only [Function.comp_apply]
    split <;> rfl
  rw [hp]

theorem veiculos_setLocacaoStatus (s : Estado) (id st : String) :
    (setLocacaoStatus s id st).veiculos = s.veiculos := rfl

theorem locacoes_setVeiculoDisponivel (s : Estado) (placa : String) (b : Bool) :
    (setVeiculoDisponivel s placa b).locacoes = s.locacoes := rfl

theorem createLocacao_eq_some {s : Estado} {l : Locacao} {s1 : Estado}
    (h : createLocacao s l = some s1) :
    getLocacao s l.id = none ∧ s1 = { s with locacoes := s.locacoes ++ [l] } := by
  unfold createLocacao at h
  split at h
  · exact absurd h (by simp)
  · next hns =>
    refine ⟨Option.not_isSome_iff_eq_none.mp (by simpa using hns), ?_⟩
    exact (Option.some.inj h).symm

theorem createVeiculo_eq_some {s : Estado} {v : Veiculo} {s1 : Estado}
    (h : createVeiculo s v = some s1) :
    getVeiculo s v.placa = none ∧ s1 = { s with veiculos := s.veiculos ++ [v] } := by
  unfold createVeiculo at h
  split at h
  · exact absurd h (by simp)
  · next hns =>
    refine ⟨Option.not_isSome_iff_eq_none.mp (by simpa using hns), ?_⟩
    exact (Option.some.inj h).symm

theorem createCliente_eq_some {s : Estado} {c : Cliente} {s1 : Estado}
    (h : createCliente s c = some s1) :
    getCliente s c.id = none ∧ s1 = { s with clientes := s.clientes ++ [c] } := by
  unfold createCliente at h
  split at h
  · exact absurd h (by simp)
  · next hns =>
    refine ⟨Option.not_isSome_iff_eq_none.mp (by simpa using hns), ?_⟩
    exact (Option.some.inj h).symm

theorem falsy_eq_false {o : Option String} (h : falsy o = false) :
    ∃ p, o = some p ∧ p ≠ "" := by
  cases o with
  | none => simp [falsy] at h
  | some s =>
    refine ⟨s, rfl, ?_⟩
    simpa [falsy] using h

theorem locacoes_cadastrarVeiculo (s : Estado) (placa marca modelo : String) (ano : Int)
    (url : String) (preco : Rat) (disp : String ⊕ Bool) :
    ((cadastrarVeiculo s placa marca modelo ano url preco disp).2).locacoes = s.locacoes := by
  unfold cadastrarVeiculo
  split
  · rfl
  · next s1 hc =>
    obtain ⟨_, rfl⟩ := createVeiculo_eq_some hc
    rfl

theorem locacoes_cadastrarCliente (s : Estado) (newId nome email tel : String) :
    ((cadastrarCliente s newId nome email tel).2).locacoes = s.locacoes := by
  unfold cadastrarCliente
  split
  · rfl
  · next s1 hc =>
    obtain ⟨_, rfl⟩ := createCliente_eq_some hc
    rfl

theorem locacoes_atualizarCliente (s : Estado) (id : String) (nome email tel : Option String) :
    ((atualizarCliente s id nome email tel).2).locacoes = s.locacoes := by
  unfold atualizarCliente
  split <;> rfl

theorem locacoes_excluirCliente (s : Estado) (id : String) :
    ((excluirCliente s id).2).locacoes = s.locacoes := by
  unfold excluirCliente deleteClienteRow
  split
  · rfl
  · split <;> rfl

theorem veiculos_cadastrarCliente (s : Estado) (newId nome email tel : String) :
    ((cadastrarCliente s newId nome email tel).2).veiculos = s.veiculos := by
  unfold cadastrarCliente
  split
  · rfl
  · next s1 hc =>
    obtain ⟨_, rfl⟩ := createCliente_eq_some hc
    rfl

theorem veiculos_atualizarCliente (s : Estado) (id : String) (nome email tel : Option String) :
    ((atualizarCliente s id nome email tel).2).veiculos = s.veiculos := by
  unfold atualizarCliente
  split <;> rfl

theorem veiculos_excluirCliente (s : Estado) (id : String) :
    ((excluirCliente s id).2).veiculos = s.veiculos := by
  unfold excluirCliente deleteClienteRow
  split
  · rfl
  · split <;> rfl

theorem wf_of_locacoes_eq {s t : Estado} (h : t.locacoes = s.locacoes)
    (hw : WfEstado s) : WfEstado t := by
  rw [WfEstado, h]
  exact hw

theorem ids_setLocacaoStatus (s : Estado) (id st : String) :
    ((setLocacaoStatus s id st).locacoes).map Locacao.id = s.locacoes.map Locacao.id := by
  unfold setLocacaoStatus
  rw [List.map_map]
  have hp : (Locacao.id ∘ fun l => if l.id == id then { l with status := st } else l) =
      Locacao.id := by
    funext l
    simp only [Function.comp_apply]
    split <;> rfl
  rw [hp]

theorem wf_setLocacaoStatusCancelada (s : Estado) (id : String) (hw : WfEstado s) :
    WfEstado (setLocacaoStatus s id "cancelada") := by
  obtain ⟨hw1, hw2⟩ := hw
  constructor
  · intro l' hl'
    simp only [setLocacaoStatus, List.mem_map] at hl'
    obtain ⟨l, hl, rfl⟩ := hl'
    obtain ⟨hpl, hst⟩ := hw1 l hl
    split
    · exact ⟨hpl, Or.inr rfl⟩
    · exact ⟨hpl, hst⟩
  · rw [ids_setLocacaoStatus]
    exact hw2

theorem wf_criarLocacao (s : Estado) (inp : LocacaoInput) (newId : String)
    (hw : WfEstado s) : ∀ fok, WfEstado ((criarLocacaoComFalha s inp newId fok).2) := by
  intro fok
  unfold criarLocacaoComFalha
  split
  · exact hw
  next hcond =>
    split
    · exact hw
    · next s1 hc =>
      obtain ⟨hfresh, rfl⟩ := createLocacao_eq_some hc
      have hval : (falsy inp.placaVeiculo || falsy inp.clienteId) = false := by
        simpa using hcond
      obtain ⟨hp, hc2⟩ := Bool.or_eq_false_iff.mp hval
      obtain ⟨p, hpo, hpne⟩ := falsy_eq_false hp
      have hwext : WfEstado { s with locacoes := s.locacoes ++ [entidadeLocacao s inp newId] } := by
        obtain ⟨hw1, hw2⟩ := hw
        constructor
        · intro l hl
          rcases List.mem_append.mp hl with h1 | h1
          · exact hw1 l h1
          · rcases List.mem_singleton.mp h1 with rfl
            refine ⟨?_, Or.inl rfl⟩
            simp only [entidadeLocacao, hpo, Option.getD_some]
            exact hpne
        · rw [List.map_append]
          refine List.Nodup.append hw2 (by simp) ?_
          intro x hx hy
          simp only [List.map_cons, List.map_nil, List.mem_singleton] at hy
          subst hy
          simp only [List.mem_map] at hx
          obtain ⟨l, hl, hid⟩ := hx
          have := getLocacao_eq_none hfresh l hl
          exact this hid
      split
      · split
        · exact wf_of_locacoes_eq (locacoes_setVeiculoDisponivel _ _ _) hwext
        · exact hwext
      · exact hwext

theorem wf_cancelarLocacao (s : Estado) (lid : String) (hw : WfEstado s) :
    WfEstado ((cancelarLocacao s lid).2) := by
  unfold cancelarLocacao
  split
  · exact hw
  · next r hr =>
    have hws1 := wf_setLocacaoStatusCancelada s r.id hw
    split
    · exact hws1
    · split
      · exact wf_of_locacoes_eq (locacoes_setVeiculoDisponivel _ _ _) hws1
      · exact hws1

theorem wf_applyOp (s : Estado) (op : Op) (hw : WfEstado s) : WfEstado (applyOp s op) := by
  cases op with
  | cadastrarVeiculoOp placa marca modelo ano url preco disp =>
    exact wf_of_locacoes_eq (locacoes_cadastrarVeiculo s placa marca modelo ano url preco disp) hw
  | cadastrarClienteOp newId nome email tel =>
    exact wf_of_locacoes_eq (locacoes_cadastrarCliente s newId nome email tel) hw
  | atualizarClienteOp id nome email tel =>
    exact wf_of_locacoes_eq (locacoes_atualizarCliente s id nome email tel) hw
  | excluirClienteOp id =>
    exact wf_of_locacoes_eq (locacoes_excluirCliente s id) hw
  | criarLocacaoOp inp newId => exact wf_criarLocacao s inp newId hw true
  | cancelarLocacaoOp lid => exact wf_cancelarLocacao s lid hw

theorem wf_runFrom (s : Estado) (ops : List Op) (hw : WfEstado s) :
    WfEstado (runFrom s ops) := by
  induction ops generalizing s with
  | nil => exact hw
  | cons op ops ih => exact ih (applyOp s op) (wf_applyOp s op hw)

theorem wf_estadoInicial : WfEstado estadoInicial := by
  constructor
  · intro l hl
    simp [estadoInicial] at hl
  · simp [estadoInicial]

theorem wf_run (ops : List Op) : WfEstado (run ops) :=
  wf_runFrom estadoInicial ops wf_estadoInicial

/-- Some rental in the list is active and references the given plate. -/
def ativaEm (ls : List Locacao) (placa : String) : Prop :=
  ∃ l ∈ ls, l.placaVeiculo = placa ∧ l.status = "ativa"

/-- The availability invariant of spec §3: a vehicle is unavailable exactly
while some rental referencing its plate is active. -/
def InvDisponibilidade (s : Estado) : Prop :=
  ∀ v ∈ s.veiculos, (v.disponivel = false ↔ ativaEm s.locacoes v.placa)

theorem ativaEm_iff_any (ls : List Locacao) (placa : String) :
    ativaEm ls placa ↔
      (ls.any fun l => l.placaVeiculo == placa && l.status == "ativa") = true := by
  simp [ativaEm, List.any_eq_true, Bool.and_eq_true]

theorem ativaEm_append_single (ls : List Locacao) (e : Locacao) (placa : String) :
    ativaEm (ls ++ [e]) placa ↔
      (ativaEm ls placa ∨ (e.placaVeiculo = placa ∧ e.status = "ativa")) := by
  constructor
  · rintro ⟨l, hl, hP⟩
    rcases List.mem_append.mp hl with h1 | h1
    · exact Or.inl ⟨l, h1, hP⟩
    · rcases List.mem_singleton.mp h1 with rfl
      exact Or.inr hP
  · rintro (⟨l, hl, hP⟩ | hP)
    · exact ⟨l, List.mem_append_left _ hl, hP⟩
    · exact ⟨e, List.mem_append_right _ (List.mem_singleton_self e), hP⟩

theorem eq_of_ids_nodup {s : Estado} (hnd : (s.locacoes.map Locacao.id).Nodup)
    {a b : Locacao} (ha : a ∈ s.locacoes) (hb : b ∈ s.locacoes) (hid : a.id = b.id) :
    a = b :=
  List.inj_on_of_nodup_map hnd ha hb hid

theorem ativaEm_cancel_iff {s : Estado} (hw : WfEstado s) {r : Locacao}
    (hrmem : r ∈ s.locacoes)
    (hg : ¬ ∃ l ∈ s.locacoes, l.id ≠ r.id ∧ l.placaVeiculo = r.placaVeiculo ∧
      l.status = "ativa") (placa : String) :
    ativaEm ((setLocacaoStatus s r.id "cancelada").locacoes) placa ↔
      (placa ≠ r.placaVeiculo ∧ ativaEm s.locacoes placa) := by
  constructor
  · rintro ⟨l', hl', hpl', hst'⟩
    simp only [setLocacaoStatus, List.mem_map] at hl'
    obtain ⟨l, hl, rfl⟩ := hl'
    by_cases hid : (l.id == r.id) = true
    · rw [if_pos hid] at hst' hpl'
      exact absurd hst' (by simp)
    · rw [if_neg hid] at hst' hpl'
      have hidne : l.id ≠ r.id := by simpa using hid
      refine ⟨?_, l, hl, hpl', hst'⟩
      intro hpe
      exact hg ⟨l, hl, hidne, hpl'.trans hpe, hst'⟩
  · rintro ⟨hpe, l, hl, hpl, hst⟩
    have hidne : l.id ≠ r.id := by
      intro hid
      have : l = r := eq_of_ids_nodup hw.2 hl hrmem hid
      subst this
      exact hpe hpl.symm
    refine ⟨if l.id == r.id then { l with status := "cancelada" } else l, ?_, ?_⟩
    · simp only [setLocacaoStatus, List.mem_map]
      exact ⟨l, hl, rfl⟩
    · rw [if_neg (by simpa using hidne)]
      exact ⟨hpl, hst⟩

/-- Sufficient side conditions (checked against the pre-state) under which a
single operation preserves the availability invariant: a vehicle must be
registered as available with no active rental already referencing its plate,
and a cancelled rental must be the only active rental on its plate. -/
def guardaOp (s : Estado) : Op → Bool
  | .cadastrarVeiculoOp placa _ _ _ _ _ disp =>
      parseDisponivel disp &&
        !(s.locacoes.any fun l => l.placaVeiculo == placa && l.status == "ativa")
  | .cancelarLocacaoOp lid =>
      match getLocacao s lid with
      | some r =>
          !(s.locacoes.any fun l =>
              !(l.id == r.id) && l.placaVeiculo == r.placaVeiculo && l.status == "ativa")
      | none => true
  | _ => true

/-- A whole operation sequence satisfies the guards along its execution. -/
def guardada (s : Estado) : List Op → Bool
  | [] => true
  | op :: ops => guardaOp s op && guardada (applyOp s op) ops

theorem inv_of_eq {s t : Estado} (hv : t.veiculos = s.veiculos)
    (hl : t.locacoes = s.locacoes) (hinv : InvDisponibilidade s) :
    InvDisponibilidade t := by
  unfold InvDisponibilidade
  rw [hv, hl]
  exact hinv

theorem inv_applyOp (s : Estado) (op : Op) (hw : WfEstado s)
    (hinv : InvDisponibilidade s) (hg : guardaOp s op = true) :
    InvDisponibilidade (applyOp s op) := by
  cases op with
  | cadastrarVeiculoOp placa marca modelo ano url preco disp =>
    simp only [guardaOp, Bool.and_eq_true, Bool.not_eq_true'] at hg
    obtain ⟨hdisp, hany⟩ := hg
    have hnoativa : ¬ ativaEm s.locacoes placa := by
      rw [ativaEm_iff_any]
      simp [hany]
    simp only [applyOp, cadastrarVeiculo]
    split
    · exact hinv
    · next s1 hc =>
      obtain ⟨hnone, rfl⟩ := createVeiculo_eq_some hc
      intro v hv
      rcases List.mem_append.mp hv with h1 | h1
      · exact hinv v h1
      · rcases List.mem_singleton.mp h1 with rfl
        constructor
        · intro hfalse
          have hf : parseDisponivel disp = false := hfalse
          rw [hdisp] at hf
          cases hf
        · intro hex
          exact absurd hex hnoativa
  | cadastrarClienteOp newId nome email tel =>
    exact inv_of_eq (veiculos_cadastrarCliente s newId nome email tel)
      (locacoes_cadastrarCliente s newId nome email tel) hinv
  | atualizarClienteOp id nome email tel =>
    exact inv_of_eq (veiculos_atualizarCliente s id nome email tel)
      (locacoes_atualizarCliente s id nome email tel) hinv
  | excluirClienteOp id =>
    exact inv_of_eq (veiculos_excluirCliente s id) (locacoes_excluirCliente s id) hinv
  | criarLocacaoOp inp newId =>
    simp only [applyOp, criarLocacao, criarLocacaoComFalha]
    split
    · exact hinv
    next hcond =>
      split
      · exact hinv
      · next s1 hc =>
        obtain ⟨hfresh, rfl⟩ := createLocacao_eq_some hc
        have hval : (falsy inp.placaVeiculo || falsy inp.clienteId) = false := by
          simpa using hcond
        obtain ⟨hpf, hcf⟩ := Bool.or_eq_false_iff.mp hval
        split
        · next v hv =>
          rw [if_pos trivial]
          obtain ⟨hvmem, hvp⟩ := getVeiculo_eq_some hv
          intro w' hw'
          simp only [setVeiculoDisponivel, List.mem_map] at hw'
          obtain ⟨w0, hw0, rfl⟩ := hw'
          dsimp only
          by_cases hwp : (w0.placa == v.placa) = true
          · rw [if_pos hwp]
            have hwpe : w0.placa = v.placa := by simpa using hwp
            constructor
            · intro _
              rw [show (setVeiculoDisponivel
                  { s with locacoes := s.locacoes ++ [entidadeLocacao s inp newId] }
                  v.placa false).locacoes = s.locacoes ++ [entidadeLocacao s inp newId]
                  from rfl, ativaEm_append_single]
              refine Or.inr ⟨?_, rfl⟩
              show inp.placaVeiculo.getD "" = _
              rw [← hvp, ← hwpe]
            · intro _
              rfl
          · rw [if_neg hwp]
            have hwpne : w0.placa ≠ v.placa := by simpa using hwp
            have hIff := hinv w0 hw0
            rw [show (setVeiculoDisponivel
                { s with locacoes := s.locacoes ++ [entidadeLocacao s inp newId] }
                v.placa false).locacoes = s.locacoes ++ [entidadeLocacao s inp newId]
                from rfl, ativaEm_append_single]
            constructor
            · intro hfalse
              exact Or.inl (hIff.mp hfalse)
            · rintro (h | ⟨hp2, _⟩)
              · exact hIff.mpr h
              · exfalso
                apply hwpne
                have hp2' : inp.placaVeiculo.getD "" = w0.placa := hp2
                exact (hvp.trans hp2').symm
        · next hvnone =>
          have hnone' := getVeiculo_eq_none hvnone
          intro w hw2
          have hIff := hinv w hw2
          have hwp : w.placa ≠ inp.placaVeiculo.getD "" := hnone' w hw2
          rw [show ({ s with locacoes := s.locacoes ++ [entidadeLocacao s inp newId] }
              : Estado).locacoes = s.locacoes ++ [entidadeLocacao s inp newId] from rfl,
            ativaEm_append_single]
          constructor
          · intro hfalse
            exact Or.inl (hIff.mp hfalse)
          · rintro (h | ⟨hp2, _⟩)
            · exact hIff.mpr h
            · exact absurd hp2.symm hwp
  | cancelarLocacaoOp lid =>
    simp only [applyOp, cancelarLocacao]
    split
    · exact hinv
    · next r hr =>
      have hrmem : r ∈ s.locacoes := (getLocacao_eq_some hr).1
      have hplne : r.placaVeiculo ≠ "" := (hw.1 r hrmem).1
      have hgprop : ¬ ∃ l ∈ s.locacoes, l.id ≠ r.id ∧ l.placaVeiculo = r.placaVeiculo ∧
          l.status = "ativa" := by
        simp only [guardaOp, hr] at hg
        have hany : (s.locacoes.any fun l =>
            !(l.id == r.id) && l.placaVeiculo == r.placaVeiculo && l.status == "ativa")
            = false := by simpa using hg
        rintro ⟨l, hl, hid, hpl, hst⟩
        have hnl := List.any_eq_false.mp hany l hl
        apply hnl
        simp [hid, hpl, hst]
      rw [if_neg (show ¬(r.placaVeiculo == "") = true by simpa using hplne)]
      split
      · next v hv =>
        obtain ⟨hvmem, hvp⟩ := getVeiculo_eq_some hv
        intro w' hw'
        simp only [setVeiculoDisponivel, veiculos_setLocacaoStatus, List.mem_map] at hw'
        obtain ⟨w0, hw0, rfl⟩ := hw'
        dsimp only
        rw [show (setVeiculoDisponivel (setLocacaoStatus s r.id "cancelada") v.placa
            true).locacoes = (setLocacaoStatus s r.id "cancelada").locacoes from rfl]
        by_cases hwp : (w0.placa == v.placa) = true
        · rw [if_pos hwp]
          have hwpe : w0.placa = v.placa := by simpa using hwp
          rw [ativaEm_cancel_iff hw hrmem hgprop]
          constructor
          · intro htrue
            cases htrue
          · rintro ⟨hne, _⟩
            exact absurd (hwpe.trans hvp) hne
        · rw [if_neg hwp]
          have hwpne : w0.placa ≠ v.placa := by simpa using hwp
          have hIff := hinv w0 hw0
          rw [ativaEm_cancel_iff hw hrmem hgprop]
          constructor
          · intro hfalse
            refine ⟨?_, hIff.mp hfalse⟩
            intro he
            exact hwpne (he.trans hvp.symm)
          · rintro ⟨_, h⟩
            exact hIff.mpr h
      · next hvnone =>
        have hnone' := getVeiculo_eq_none hvnone
        intro w hw2
        have hIff := hinv w hw2
        rw [ativaEm_cancel_iff hw hrmem hgprop]
        constructor
        · intro hfalse
          exact ⟨fun he => (hnone' w hw2) he, hIff.mp hfalse⟩
        · rintro ⟨_, h⟩
          exact hIff.mpr h

theorem inv_runFrom : ∀ (ops : List Op) (s : Estado), WfEstado s → InvDisponibilidade s →
    guardada s ops = true → InvDisponibilidade (runFrom s ops) := by
  intro ops
  induction ops with
  | nil =>
    intro s _ hinv _
    exact hinv
  | cons op ops ih =>
    intro s hw hinv hg
    have hg' : guardaOp s op = true ∧ guardada (applyOp s op) ops = true := by
      simpa [guardada] using hg
    exact ih (applyOp s op) (wf_applyOp s op hw) (inv_applyOp s op hw hinv hg'.1) hg'.2

theorem inv_estadoInicial : InvDisponibilidade estadoInicial := by
  intro v hv
  simp [estadoInicial] at hv

theorem getLocacao_eq_of_locacoes_eq {s t : Estado} (ht : t.locacoes = s.locacoes)
    (id : String) : getLocacao t id = getLocacao s id := by
  unfold getLocacao
  rw [ht]

theorem locacao_preservada_applyOp (s : Estado) (op : Op) (id : String) (r : Locacao)
    (h : getLocacao s id = some r) :
    ∃ r', getLocacao (applyOp s op) id = some r' ∧
      (r' = r ∨ r' = { r with status := "cancelada" }) := by
  cases op with
  | cadastrarVeiculoOp placa marca modelo ano url preco disp =>
    refine ⟨r, ?_, Or.inl rfl⟩
    simp only [applyOp]
    rw [getLocacao_eq_of_locacoes_eq
      (locacoes_cadastrarVeiculo s placa marca modelo ano url preco disp) id]
    exact h
  | cadastrarClienteOp newId nome email tel =>
    refine ⟨r, ?_, Or.inl rfl⟩
    simp only [applyOp]
    rw [getLocacao_eq_of_locacoes_eq (locacoes_cadastrarCliente s newId nome email tel) id]
    exact h
  | atualizarClienteOp id2 nome email tel =>
    refine ⟨r, ?_, Or.inl rfl⟩
    simp only [applyOp]
    rw [getLocacao_eq_of_locacoes_eq (locacoes_atualizarCliente s id2 nome email tel) id]
    exact h
  | excluirClienteOp id2 =>
    refine ⟨r, ?_, Or.inl rfl⟩
    simp only [applyOp]
    rw [getLocacao_eq_of_locacoes_eq (locacoes_excluirCliente s id2) id]
    exact h
  | criarLocacaoOp inp newId =>
    simp only [applyOp, criarLocacao, criarLocacaoComFalha]
    split
    · exact ⟨r, h, Or.inl rfl⟩
    · split
      · exact ⟨r, h, Or.inl rfl⟩
      · next s1 hc =>
        obtain ⟨hfresh, rfl⟩ := createLocacao_eq_some hc
        have hget : getLocacao
            { s with locacoes := s.locacoes ++ [entidadeLocacao s inp newId] } id = some r := by
          unfold getLocacao at h ⊢
          simp only [List.find?_append, h, Option.or_some]
        split
        · rw [if_pos trivial]
          exact ⟨r, hget, Or.inl rfl⟩
        · exact ⟨r, hget, Or.inl rfl⟩
  | cancelarLocacaoOp lid =>
    simp only [applyOp, cancelarLocacao]
    split
    · exact ⟨r, h, Or.inl rfl⟩
    · next r2 hr2 =>
      have hkey := getLocacao_setLocacaoStatus s r2.id "cancelada" id
      rw [h] at hkey
      simp only [Option.map] at hkey
      by_cases hid : (r.id == r2.id) = true
      · rw [if_pos hid] at hkey
        split
        · exact ⟨_, hkey, Or.inr rfl⟩
        · split
          · exact ⟨_, hkey, Or.inr rfl⟩
          · exact ⟨_, hkey, Or.inr rfl⟩
      · rw [if_neg hid] at hkey
        split
        · exact ⟨_, hkey, Or.inl rfl⟩
        · split
          · exact ⟨_, hkey, Or.inl rfl⟩
          · exact ⟨_, hkey, Or.inl rfl⟩

theorem locacao_preservada_runFrom : ∀ (ops : List Op) (s : Estado), WfEstado s →
    ∀ (id : String) (r : Locacao), getLocacao s id = some r →
    ∃ r', getLocacao (runFrom s ops) id = some r' ∧
      (r'.status = r.status ∨ (r.status = "ativa" ∧ r'.status = "cancelada")) := by
  intro ops
  induction ops with
  | nil =>
    intro s _ id r h
    exact ⟨r, h, Or.inl rfl⟩
  | cons op ops ih =>
    intro s hw id r h
    obtain ⟨r1, h1, hd1⟩ := locacao_preservada_applyOp s op id r h
    obtain ⟨r', h', hd'⟩ := ih (applyOp s op) (wf_applyOp s op hw) id r1 h1
    refine ⟨r', h', ?_⟩
    rcases hd1 with rfl | rfl
    · exact hd'
    · rcases (hw.1 r (getLocacao_eq_some h).1).2 with hative | hcanc
      · rcases hd' with h2 | h2
        · exact Or.inr ⟨hative, h2⟩
        · exact Or.inr ⟨hative, h2.2⟩
      · rcases hd' with h2 | h2
        · exact Or.inl (h2.trans hcanc.symm)
        · exact Or.inl (h2.2.trans hcanc.symm)

instance (ls : List Locacao) (placa : String) : Decidable (ativaEm ls placa) :=
  decidable_of_iff _ (ativaEm_iff_any ls placa).symm

instance (s : Estado) : Decidable (InvDisponibilidade s) := by
  unfold InvDisponibilidade
  infer_instance

theorem temLocacoesAtivas_iff (s : Estado) (id : String) :
    temLocacoesAtivas s id = true ↔
      ∃ l ∈ s.locacoes, l.clienteId = id ∧ l.status = "ativa" := by
  simp [temLocacoesAtivas, List.any_eq_true, Bool.and_eq_true]

theorem snapshotCampo_some (m : String) : snapshotCampo (some m) = if m = "" then "---" else m := by
  unfold snapshotCampo
  by_cases h : m = "" <;> simp [h]

theorem setLocacaoStatus_idem (s : Estado) (id st : String) :
    setLocacaoStatus (setLocacaoStatus s id st) id st = setLocacaoStatus s id st := by
  have hf : ((fun l : Locacao => if l.id == id then { l with status := st } else l) ∘
      (fun l => if l.id == id then { l with status := st } else l)) =
      (fun l : Locacao => if l.id == id then { l with status := st } else l) := by
    funext l
    simp only [Function.comp_apply]
    by_cases h : (l.id == id) = true <;> simp [h]
  unfold setLocacaoStatus
  dsimp only
  rw [List.map_map, hf]

theorem setVeiculoDisponivel_idem (s : Estado) (placa : String) (b : Bool) :
    setVeiculoDisponivel (setVeiculoDisponivel s placa b) placa b =
      setVeiculoDisponivel s placa b := by
  have hf : ((fun v : Veiculo => if v.placa == placa then { v with disponivel := b } else v) ∘
      (fun v => if v.placa == placa then { v with disponivel := b } else v)) =
      (fun v : Veiculo => if v.placa == placa then { v with disponivel := b } else v) := by
    funext v
    simp only [Function.comp_apply]
    by_cases h : (v.placa == placa) = true <;> simp [h]
  unfold setVeiculoDisponivel
  dsimp only
  rw [List.map_map, hf]

/-- The vehicle fields other than the `disponivel` flag, used to state the
frame property of the partial merge updates. -/
def camposFixos (v : Veiculo) : String × String × Int × Rat × String :=
  (v.marca, v.modelo, v.ano, v.precoDiaria, v.urlImagem)

theorem camposFixos_setVeiculoDisponivel (s : Estado) (p : String) (b : Bool) (q : String) :
    (getVeiculo (setVeiculoDisponivel s p b) q).map camposFixos =
      (getVeiculo s q).map camposFixos := by
  rw [getVeiculo_setVeiculoDisponivel, Option.map_map]
  have hp : (camposFixos ∘ fun v => if v.placa == p then { v with disponivel := b } else v) =
      camposFixos := by
    funext v
    simp only [Function.comp_apply]
    split <;> rfl
  rw [hp]

/-- Shared concrete fixtures used by the witness and counterexample
theorems below. -/
def vFix : Veiculo := ⟨"ABC123", "Toyota", "Corolla", 2020, "", 150, true⟩

def inpFix : LocacaoInput :=
  ⟨some "ABC123", some "c1", some "2024-01-01", some "2024-01-05", 600⟩

def opsC5 : List Op :=
  [Op.cadastrarVeiculoOp "ABC123" "Toyota" "Corolla" 2020 "" 150 (Sum.inl "true"),
   Op.criarLocacaoOp inpFix "L1",
   Op.cancelarLocacaoOp "L1"]

def preC8 : List Op := [Op.criarLocacaoOp inpFix "L1"]

def postC8 : List Op := [Op.cancelarLocacaoOp "L1"]

def rC8 : Locacao :=
  ⟨"L1", "ABC123", "---", "---", "c1", some "2024-01-01", some "2024-01-05", 600, "ativa"⟩

/-- The brand/model filter of GET /veiculos/disponiveis as the spec §4.4
describes it: a supplied (present and nonempty) filter is an equality test
on the corresponding field; an unsupplied filter passes every vehicle. -/
def filtroPassa (filtro : Option String) (campo : String) : Bool :=
  match filtro with
  | none => true
  | some f => if f == "" then true else campo == f

theorem getLocacao_append_fresh {s : Estado} {e : Locacao}
    (hfresh : getLocacao s e.id = none) :
    getLocacao { s with locacoes := s.locacoes ++ [e] } e.id = some e := by
  unfold getLocacao at hfresh ⊢
  dsimp only
  rw [List.find?_append, hfresh, Option.none_or]
  simp

theorem criarLocacao_validacao (s : Estado) (inp : LocacaoInput) (newId : String)
    (fok : Bool) (h : (falsy inp.placaVeiculo || falsy inp.clienteId) = true) :
    criarLocacaoComFalha s inp newId fok =
      (Resp.badRequest "Campos obrigatórios ausentes.", s) := by
  unfold criarLocacaoComFalha
  rw [if_pos h]

theorem createLocacao_fresh {s : Estado} {inp : LocacaoInput} {newId : String}
    (hfresh : getLocacao s newId = none) :
    createLocacao s (entidadeLocacao s inp newId) =
      some { s with locacoes := s.locacoes ++ [entidadeLocacao s inp newId] } := by
  unfold createLocacao
  rw [show getLocacao s (entidadeLocacao s inp newId).id = none from hfresh]
  simp

theorem criarLocacao_encontrado (s : Estado) (inp : LocacaoInput) (newId : String)
    (v : Veiculo) (fok : Bool)
    (hp : falsy inp.placaVeiculo = false) (hcid : falsy inp.clienteId = false)
    (hfresh : getLocacao s newId = none)
    (hv : getVeiculo s (inp.placaVeiculo.getD "") = some v) :
    criarLocacaoComFalha s inp newId fok =
      if fok then
        (Resp.ok, setVeiculoDisponivel
          { s with locacoes := s.locacoes ++ [entidadeLocacao s inp newId] } v.placa false)
      else
        (Resp.serverError,
          { s with locacoes := s.locacoes ++ [entidadeLocacao s inp newId] }) := by
  unfold criarLocacaoComFalha
  rw [if_neg (by simp [hp, hcid])]
  simp only [createLocacao_fresh hfresh, hv]

theorem criarLocacao_nao_encontrado (s : Estado) (inp : LocacaoInput) (newId : String)
    (fok : Bool)
    (hp : falsy inp.placaVeiculo = false) (hcid : falsy inp.clienteId = false)
    (hfresh : getLocacao s newId = none)
    (hv : getVeiculo s (inp.placaVeiculo.getD "") = none) :
    criarLocacaoComFalha s inp newId fok =
      (Resp.ok, { s with locacoes := s.locacoes ++ [entidadeLocacao s inp newId] }) := by
  unfold criarLocacaoComFalha
  rw [if_neg (by simp [hp, hcid])]
  simp only [createLocacao_fresh hfresh, hv]

theorem criarLocacao_ok_inversa (s : Estado) (inp : LocacaoInput) (newId : String)
    (hok : (criarLocacao s inp newId).1 = Resp.ok) :
    falsy inp.placaVeiculo = false ∧ falsy inp.clienteId = false ∧
      getLocacao s newId = none := by
  unfold criarLocacao criarLocacaoComFalha at hok
  by_cases hcond : (falsy inp.placaVeiculo || falsy inp.clienteId) = true
  · rw [if_pos hcond] at hok
    cases hok
  · have hval : (falsy inp.placaVeiculo || falsy inp.clienteId) = false := by
      simpa using hcond
    obtain ⟨h1, h2⟩ := Bool.or_eq_false_iff.mp hval
    refine ⟨h1, h2, ?_⟩
    rw [if_neg hcond] at hok
    cases hc : createLocacao s (entidadeLocacao s inp newId) with
    | none =>
      rw [hc] at hok
      cases hok
    | some s1 =>
      exact (createLocacao_eq_some hc).1

def vSemMarca : Veiculo := ⟨"XYZ111", "", "Corolla", 2020, "", 150, true⟩

def sC1 : Estado := ⟨[vSemMarca], [], []⟩

def inpC1 : LocacaoInput := ⟨some "XYZ111", some "c1", none, none, 600⟩

def sC1w : Estado := ⟨[vFix], [], []⟩

/-- C1 counterexample: the claim promises that a successful creation against
an existing vehicle snapshots the vehicle's brand into the rental, but for a
vehicle whose stored brand is the empty string the handler's
`veiculo?.marca || '---'` stores the placeholder "---" instead, so the
created rental's brand differs from the vehicle's brand. -/
theorem C1_counterexample :
    getVeiculo sC1 "XYZ111" = some vSemMarca ∧
    (criarLocacao sC1 inpC1 "L1").1 = Resp.ok ∧
    (getLocacao ((criarLocacao sC1 inpC1 "L1").2) "L1").map Locacao.marca ≠
      some vSemMarca.marca := by
  decide

/-- C1 (amended): for every rental-creation request whose plate names an
existing vehicle, a successful operation creates a new rental with status
"ativa" carrying a snapshot of the vehicle's brand and model — with the
placeholder "---" substituted when the stored brand or model is the empty
string — and sets that vehicle's `disponivel` flag to false.  The rental
row is persisted before the vehicle flag is flipped: when the flag write
fails the handler answers 500 but the already-persisted active rental
remains and the vehicle rows are untouched (no compensating rollback). -/
theorem C1_criacao_snapshot_e_ordem (s : Estado) (inp : LocacaoInput) (newId : String)
    (v : Veiculo)
    (hv : getVeiculo s (inp.placaVeiculo.getD "") = some v)
    (hok : (criarLocacao s inp newId).1 = Resp.ok) :
    (∃ r, getLocacao ((criarLocacao s inp newId).2) newId = some r ∧
      r.status = "ativa" ∧
      r.marca = (if v.marca = "" then "---" else v.marca) ∧
      r.modelo = (if v.modelo = "" then "---" else v.modelo)) ∧
    ((getVeiculo ((criarLocacao s inp newId).2) (inp.placaVeiculo.getD "")).map
        Veiculo.disponivel = some false) ∧
    (∃ s1, criarLocacaoComFalha s inp newId false = (Resp.serverError, s1) ∧
      s1.veiculos = s.veiculos ∧
      getLocacao s1 newId = some (entidadeLocacao s inp newId) ∧
      (entidadeLocacao s inp newId).status = "ativa" ∧
      (criarLocacao s inp newId).2 = setVeiculoDisponivel s1 v.placa false) := by
  obtain ⟨hp, hcid, hfresh⟩ := criarLocacao_ok_inversa s inp newId hok
  have hfound := criarLocacao_encontrado s inp newId v true hp hcid hfresh hv
  have hfail := criarLocacao_encontrado s inp newId v false hp hcid hfresh hv
  rw [if_pos rfl] at hfound
  rw [if_neg (by simp)] at hfail
  have h2 : (criarLocacao s inp newId).2 = setVeiculoDisponivel
      { s with locacoes := s.locacoes ++ [entidadeLocacao s inp newId] } v.placa false := by
    unfold criarLocacao
    rw [hfound]
  refine ⟨⟨entidadeLocacao s inp newId, ?_, rfl, ?_, ?_⟩, ?_,
    ⟨{ s with locacoes := s.locacoes ++ [entidadeLocacao s inp newId] },
      hfail, rfl, ?_, rfl, ?_⟩⟩
  · rw [h2, getLocacao_eq_of_locacoes_eq (locacoes_setVeiculoDisponivel _ _ _) newId]
    exact getLocacao_append_fresh hfresh
  · simp [entidadeLocacao, hv, snapshotCampo_some]
  · simp [entidadeLocacao, hv, snapshotCampo_some]
  · rw [h2, getVeiculo_setVeiculoDisponivel]
    have hsx : getVeiculo { s with locacoes := s.locacoes ++ [entidadeLocacao s inp newId] }
        (inp.placaVeiculo.getD "") = some v := hv
    rw [hsx]
    simp
  · exact getLocacao_append_fresh hfresh
  · exact h2

theorem C1_criacao_snapshot_e_ordem_witness :
    (∃ r, getLocacao ((criarLocacao sC1w inpFix "L1").2) "L1" = some r ∧
      r.status = "ativa" ∧
      r.marca = (if vFix.marca = "" then "---" else vFix.marca) ∧
      r.modelo = (if vFix.modelo = "" then "---" else vFix.modelo)) ∧
    ((getVeiculo ((criarLocacao sC1w inpFix "L1").2) (inpFix.placaVeiculo.getD "")).map
        Veiculo.disponivel = some false) ∧
    (∃ s1, criarLocacaoComFalha sC1w inpFix "L1" false = (Resp.serverError, s1) ∧
      s1.veiculos = sC1w.veiculos ∧
      getLocacao s1 "L1" = some (entidadeLocacao sC1w inpFix "L1") ∧
      (entidadeLocacao sC1w inpFix "L1").status = "ativa" ∧
      (criarLocacao sC1w inpFix "L1").2 = setVeiculoDisponivel s1 vFix.placa false) :=
  C1_criacao_snapshot_e_ordem sC1w inpFix "L1" vFix (by decide) (by decide)

def inpC4 : LocacaoInput := ⟨some "ZZZ999", some "c1", none, none, 600⟩

/-- C4: rental creation answers 400 (ValidationError) exactly when the
`placaVeiculo` or `clienteId` body field is absent (the handler's truthiness
test, which also fires on an empty string — `falsy`); when both are present
and the referenced vehicle does not exist, the operation still succeeds and
stores the placeholder "---" as the rental's brand and model. -/
theorem C4_validacao_e_placa_inexistente (s : Estado) (inp : LocacaoInput) (newId : String)
    (hfresh : getLocacao s newId = none) :
    ((∃ m, (criarLocacao s inp newId).1 = Resp.badRequest m) ↔
      (falsy inp.placaVeiculo = true ∨ falsy inp.clienteId = true)) ∧
    (falsy inp.placaVeiculo = false → falsy inp.clienteId = false →
      getVeiculo s (inp.placaVeiculo.getD "") = none →
      (criarLocacao s inp newId).1 = Resp.ok ∧
      ∃ r, getLocacao ((criarLocacao s inp newId).2) newId = some r ∧
        r.marca = "---" ∧ r.modelo = "---" ∧ r.status = "ativa") := by
  constructor
  · by_cases hcond : (falsy inp.placaVeiculo || falsy inp.clienteId) = true
    · constructor
      · intro _
        simpa using hcond
      · intro _
        refine ⟨"Campos obrigatórios ausentes.", ?_⟩
        show (criarLocacaoComFalha s inp newId true).1 = _
        rw [criarLocacao_validacao s inp newId true hcond]
    · have hval : (falsy inp.placaVeiculo || falsy inp.clienteId) = false := by
        simpa using hcond
      obtain ⟨hp, hc⟩ := Bool.or_eq_false_iff.mp hval
      constructor
      · rintro ⟨m, hm⟩
        exfalso
        cases hveq : getVeiculo s (inp.placaVeiculo.getD "") with
        | some v =>
          have hfound := criarLocacao_encontrado s inp newId v true hp hc hfresh hveq
          rw [if_pos rfl] at hfound
          rw [show criarLocacao s inp newId = _ from hfound] at hm
          cases hm
        | none =>
          have hnf := criarLocacao_nao_encontrado s inp newId true hp hc hfresh hveq
          rw [show criarLocacao s inp newId = _ from hnf] at hm
          cases hm
      · rintro (h1 | h1)
        · rw [hp] at h1
          cases h1
        · rw [hc] at h1
          cases h1
  · intro hp hc hveq
    have hnf := criarLocacao_nao_encontrado s inp newId true hp hc hfresh hveq
    have h2 : criarLocacao s inp newId =
        (Resp.ok, { s with locacoes := s.locacoes ++ [entidadeLocacao s inp newId] }) := hnf
    refine ⟨by rw [h2], entidadeLocacao s inp newId, ?_, ?_, ?_, rfl⟩
    · rw [h2]
      exact getLocacao_append_fresh (e := entidadeLocacao s inp newId) hfresh
    · simp [entidadeLocacao, hveq, snapshotCampo]
    · simp [entidadeLocacao, hveq, snapshotCampo]

theorem C4_validacao_e_placa_inexistente_witness :
    (criarLocacao estadoInicial inpC4 "L1").1 = Resp.ok ∧
    ∃ r, getLocacao ((criarLocacao estadoInicial inpC4 "L1").2) "L1" = some r ∧
      r.marca = "---" ∧ r.modelo = "---" ∧ r.status = "ativa" :=
  (C4_validacao_e_placa_inexistente estadoInicial inpC4 "L1" rfl).2 rfl rfl rfl

def vC10 : Veiculo := ⟨"ABC123", "Toyota", "Corolla", 2020, "", 150, false⟩

def lC10 : Locacao := ⟨"L1", "ABC123", "Toyota", "Corolla", "c9", none, none, 600, "ativa"⟩

def sC10 : Estado := ⟨[vC10], [], [lC10]⟩

/-- C10: rental creation never inspects the vehicle's `disponivel` flag: for
a vehicle already unavailable, a creation request for its plate with both
required fields present (and a fresh row key) still succeeds, appending a
new active rental for that plate, and every earlier active rental on the
plate survives as a distinct record — double booking in purely sequential
execution. -/
theorem C10_dupla_reserva (s : Estado) (inp : LocacaoInput) (newId : String) (v : Veiculo)
    (hp : falsy inp.placaVeiculo = false) (hcid : falsy inp.clienteId = false)
    (hv : getVeiculo s (inp.placaVeiculo.getD "") = some v)
    (_hind : v.disponivel = false)
    (hfresh : getLocacao s newId = none) :
    (criarLocacao s inp newId).1 = Resp.ok ∧
    (∃ r, getLocacao ((criarLocacao s inp newId).2) newId = some r ∧
      r.status = "ativa" ∧ r.placaVeiculo = inp.placaVeiculo.getD "") ∧
    (∀ l ∈ s.locacoes, l.placaVeiculo = inp.placaVeiculo.getD "" → l.status = "ativa" →
      l ∈ ((criarLocacao s inp newId).2).locacoes ∧ l.id ≠ newId) := by
  have hfound := criarLocacao_encontrado s inp newId v true hp hcid hfresh hv
  rw [if_pos rfl] at hfound
  have h2 : criarLocacao s inp newId = (Resp.ok, setVeiculoDisponivel
      { s with locacoes := s.locacoes ++ [entidadeLocacao s inp newId] } v.placa false) :=
    hfound
  refine ⟨by rw [h2], ⟨entidadeLocacao s inp newId, ?_, rfl, rfl⟩, ?_⟩
  · rw [h2]
    exact getLocacao_append_fresh (e := entidadeLocacao s inp newId) hfresh
  · intro l hl hpl hst
    refine ⟨?_, getLocacao_eq_none hfresh l hl⟩
    rw [h2]
    exact List.mem_append_left _ hl

theorem C10_dupla_reserva_witness :
    (criarLocacao sC10 inpFix "L2").1 = Resp.ok ∧
    (∃ r, getLocacao ((criarLocacao sC10 inpFix "L2").2) "L2" = some r ∧
      r.status = "ativa" ∧ r.placaVeiculo = inpFix.placaVeiculo.getD "") ∧
    (∀ l ∈ sC10.locacoes, l.placaVeiculo = inpFix.placaVeiculo.getD "" →
      l.status = "ativa" →
      l ∈ ((criarLocacao sC10 inpFix "L2").2).locacoes ∧ l.id ≠ "L2") :=
  C10_dupla_reserva sC10 inpFix "L2" vC10 rfl rfl (by decide) rfl (by decide)

/-- C5 (amended): the §3 availability invariant — a vehicle is unavailable
exactly while some rental referencing its plate is active — holds in every
state reachable by operation sequences that satisfy the guards of
`guardaOp`: every vehicle registration stores the vehicle as available and
no active rental already references its plate, and every cancellation
targets a rental that is the only active rental on its plate (all store
writes succeeding).  Without these restrictions the invariant fails in
reachable states (see the counterexample). -/
theorem C5_invariante_guardado (ops : List Op) (hg : guardada estadoInicial ops = true) :
    InvDisponibilidade (run ops) :=
  inv_runFrom ops estadoInicial wf_estadoInicial inv_estadoInicial hg

theorem C5_invariante_guardado_witness :
    guardada estadoInicial opsC5 = true ∧ InvDisponibilidade (run opsC5) :=
  ⟨by decide, C5_invariante_guardado opsC5 (by decide)⟩

/-- C5 counterexample: the claim "in every state reachable by sequences of
the engine's operations each vehicle satisfies available = false iff some
active rental references it" is false: registering a vehicle whose
`disponivel` body field is "false" reaches a state with an unavailable
vehicle and no rental at all. -/
theorem C5_counterexample :
    ¬ InvDisponibilidade
      (run [Op.cadastrarVeiculoOp "ABC123" "Toyota" "Corolla" 2020 "" 150
        (Sum.inl "false")]) := by
  decide

/-- C7: listing available vehicles returns exactly the vehicles whose
`disponivel` flag is true and which pass the brand and the model filter,
where a supplied (present, nonempty) filter is an equality test on the
corresponding field and an unsupplied filter passes every vehicle. -/
theorem C7_listagem_veiculos_disponiveis (s : Estado) (marca modelo : Option String) :
    veiculosDisponiveis s marca modelo =
      s.veiculos.filter
        (fun v => v.disponivel && filtroPassa marca v.marca && filtroPassa modelo v.modelo) := by
  unfold veiculosDisponiveis
  rw [List.filter_filter]
  have e1 : ∀ c : String, (falsy marca || c == marca.getD "") = filtroPassa marca c := by
    intro c
    cases marca with
    | none => rfl
    | some m =>
      by_cases hm : m = ""
      · subst hm
        simp [falsy, filtroPassa]
      · simp [falsy, filtroPassa, hm]
  have e2 : ∀ c : String, (falsy modelo || c == modelo.getD "") = filtroPassa modelo c := by
    intro c
    cases modelo with
    | none => rfl
    | some m =>
      by_cases hm : m = ""
      · subst hm
        simp [falsy, filtroPassa]
      · simp [falsy, filtroPassa, hm]
  congr 1
  funext v
  rw [e1 v.marca, e2 v.modelo]
  simp [Bool.and_comm, Bool.and_left_comm, Bool.and_assoc]

/-- C8: a rental present in a state reached by a sequence of operations is
still present after any further sequence of operations (never deleted), its
status either unchanged or moved from "ativa" to "cancelada", and a
cancelled rental never returns to "ativa". -/
theorem C8_status_so_avanca (pre post : List Op) (id : String) (r : Locacao)
    (h : getLocacao (run pre) id = some r) :
    ∃ r', getLocacao (run (pre ++ post)) id = some r' ∧
      (r'.status = r.status ∨ (r.status = "ativa" ∧ r'.status = "cancelada")) ∧
      (r.status = "cancelada" → r'.status = "cancelada") := by
  have hrun : run (pre ++ post) = runFrom (run pre) post := by
    unfold run runFrom
    rw [List.foldl_append]
  obtain ⟨r', h', hd⟩ := locacao_preservada_runFrom post (run pre) (wf_run pre) id r h
  refine ⟨r', by rw [hrun]; exact h', hd, ?_⟩
  intro hc
  rcases hd with h2 | h2
  · exact h2.trans hc
  · exact h2.2

theorem C8_status_so_avanca_witness :
    ∃ r', getLocacao (run (preC8 ++ postC8)) "L1" = some r' ∧
      (r'.status = rC8.status ∨ (rC8.status = "ativa" ∧ r'.status = "cancelada")) ∧
      (rC8.status = "cancelada" → r'.status = "cancelada") :=
  C8_status_so_avanca preC8 postC8 "L1" rC8 (by decide)

def opsC2 : List Op :=
  [Op.cadastrarVeiculoOp "ABC123" "Toyota" "Corolla" 2020 "" 150 (Sum.inl "true"),
   Op.criarLocacaoOp inpFix "L1"]

def rC2 : Locacao :=
  ⟨"L1", "ABC123", "Toyota", "Corolla", "c1", some "2024-01-01", some "2024-01-05", 600,
   "ativa"⟩

/-- C2: in any reachable store state, cancelling an existing rental answers
success and merges the rental's status to "cancelada"; then, if the vehicle
referenced by the rental's plate exists, its `disponivel` flag is set back
to true, and if it does not exist the cancellation still succeeds. -/
theorem C2_cancelamento (ops : List Op) (rid : String) (r : Locacao)
    (hr : getLocacao (run ops) rid = some r) :
    (cancelarLocacao (run ops) rid).1 = Resp.ok ∧
    (getLocacao ((cancelarLocacao (run ops) rid).2) rid).map Locacao.status =
      some "cancelada" ∧
    (∀ v, getVeiculo (run ops) r.placaVeiculo = some v →
      (getVeiculo ((cancelarLocacao (run ops) rid).2) r.placaVeiculo).map
        Veiculo.disponivel = some true) ∧
    (getVeiculo (run ops) r.placaVeiculo = none →
      (cancelarLocacao (run ops) rid).1 = Resp.ok) := by
  have hplne : r.placaVeiculo ≠ "" := ((wf_run ops).1 r (getLocacao_eq_some hr).1).1
  simp only [cancelarLocacao, hr]
  rw [if_neg (by simpa using hplne)]
  cases hveq : getVeiculo (setLocacaoStatus (run ops) r.id "cancelada") r.placaVeiculo with
  | some v' =>
    simp only [hveq]
    refine ⟨trivial, ?_, ?_, fun _ => trivial⟩
    · rw [getLocacao_eq_of_locacoes_eq (locacoes_setVeiculoDisponivel _ _ _) rid,
        getLocacao_setLocacaoStatus, hr]
      simp
    · intro v _
      have hvp' : v'.placa = r.placaVeiculo := (getVeiculo_eq_some hveq).2
      rw [getVeiculo_setVeiculoDisponivel, hveq, hvp']
      simp [hvp']
  | none =>
    simp only [hveq]
    refine ⟨trivial, ?_, ?_, fun _ => trivial⟩
    · rw [getLocacao_setLocacaoStatus, hr]
      simp
    · intro v hv2
      have hsame : getVeiculo (setLocacaoStatus (run ops) r.id "cancelada") r.placaVeiculo =
          getVeiculo (run ops) r.placaVeiculo := rfl
      rw [hsame, hv2] at hveq
      cases hveq

theorem C2_cancelamento_witness :
    (cancelarLocacao (run opsC2) "L1").1 = Resp.ok ∧
    (getLocacao ((cancelarLocacao (run opsC2) "L1").2) "L1").map Locacao.status =
      some "cancelada" ∧
    (∀ v, getVeiculo (run opsC2) rC2.placaVeiculo = some v →
      (getVeiculo ((cancelarLocacao (run opsC2) "L1").2) rC2.placaVeiculo).map
        Veiculo.disponivel = some true) ∧
    (getVeiculo (run opsC2) rC2.placaVeiculo = none →
      (cancelarLocacao (run opsC2) "L1").1 = Resp.ok) :=
  C2_cancelamento opsC2 "L1" rC2 (by decide)

def cFix : Cliente := ⟨"c1", "Ana", "ana@mail", "111"⟩

def lC3 : Locacao := ⟨"L1", "ABC123", "Toyota", "Corolla", "c1", none, none, 600, "ativa"⟩

def sC3 : Estado := ⟨[], [cFix], [lC3]⟩

/-- C3: deleting a client answers 404 (NotFound) when the client does not
exist; when it exists and some rental with the client's id is active (the
`List.any` scan short-circuits on the first match), the handler answers a
400 conflict — distinct from 404 — and the state, in particular the client
record, is unchanged; when it exists and no such rental is active, the
client row is deleted and a subsequent lookup reports it missing. -/
theorem C3_exclusao_cliente (s : Estado) (id : String) :
    (getCliente s id = none → excluirCliente s id = (Resp.notFound, s)) ∧
    (∀ c, getCliente s id = some c →
      ((∃ l ∈ s.locacoes, l.clienteId = id ∧ l.status = "ativa") →
        (excluirCliente s id).1 =
          Resp.badRequest "Não é possível excluir cliente com locações ativas" ∧
        (excluirCliente s id).1 ≠ Resp.notFound ∧
        (excluirCliente s id).2 = s) ∧
      (¬ (∃ l ∈ s.locacoes, l.clienteId = id ∧ l.status = "ativa") →
        (excluirCliente s id).1 = Resp.ok ∧
        getCliente ((excluirCliente s id).2) id = none)) := by
  constructor
  · intro h
    unfold excluirCliente
    rw [h]
  · intro c hc
    constructor
    · intro hex
      have hb : temLocacoesAtivas s id = true := (temLocacoesAtivas_iff s id).mpr hex
      simp only [excluirCliente, hc]
      rw [if_pos hb]
      exact ⟨rfl, by simp, rfl⟩
    · intro hnex
      have hb : temLocacoesAtivas s id = false := by
        cases hbb : temLocacoesAtivas s id with
        | true => exact absurd ((temLocacoesAtivas_iff s id).mp hbb) hnex
        | false => rfl
      simp only [excluirCliente, hc]
      rw [if_neg (by simp [hb])]
      refine ⟨rfl, ?_⟩
      unfold getCliente deleteClienteRow
      dsimp only
      rw [List.find?_eq_none]
      intro x hx
      have hq := (List.mem_filter.mp hx).2
      simpa using hq

theorem C3_exclusao_cliente_witness :
    (excluirCliente sC3 "c1").1 =
      Resp.badRequest "Não é possível excluir cliente com locações ativas" ∧
    (excluirCliente sC3 "c1").1 ≠ Resp.notFound ∧
    (excluirCliente sC3 "c1").2 = sC3 :=
  ((C3_exclusao_cliente sC3 "c1").2 cFix (by decide)).1
    ⟨lC3, by simp [sC3, lC3], rfl, rfl⟩

def lC6 : Locacao := ⟨"L1", "ABC123", "Toyota", "Corolla", "c1", none, none, 600, "cancelada"⟩

def sC6 : Estado := ⟨[vC10], [], [lC6]⟩

/-- C6: cancellation is idempotent: cancelling an already-cancelled rental
is not rejected (the handler answers success) and leaves the status
"cancelada", and running the whole cancellation twice produces exactly the
same response and state as running it once — the only repeated effect,
re-marking the referenced vehicle available, rewrites the value the flag
already has. -/
theorem C6_cancelamento_idempotente (s : Estado) (rid : String) :
    (∀ r, getLocacao s rid = some r → r.status = "cancelada" →
      (cancelarLocacao s rid).1 = Resp.ok ∧
      (getLocacao ((cancelarLocacao s rid).2) rid).map Locacao.status =
        some "cancelada") ∧
    cancelarLocacao ((cancelarLocacao s rid).2) rid = cancelarLocacao s rid := by
  constructor
  · intro r hr _
    simp only [cancelarLocacao, hr]
    split
    · refine ⟨rfl, ?_⟩
      rw [getLocacao_setLocacaoStatus, hr]
      simp
    · cases hveq : getVeiculo (setLocacaoStatus s r.id "cancelada") r.placaVeiculo with
      | some v' =>
        simp only [hveq]
        refine ⟨trivial, ?_⟩
        rw [getLocacao_eq_of_locacoes_eq (locacoes_setVeiculoDisponivel _ _ _) rid,
          getLocacao_setLocacaoStatus, hr]
        simp
      | none =>
        simp only [hveq]
        refine ⟨trivial, ?_⟩
        rw [getLocacao_setLocacaoStatus, hr]
        simp
  · cases hr : getLocacao s rid with
    | none =>
      have h1 : cancelarLocacao s rid = (Resp.serverError, s) := by
        simp only [cancelarLocacao, hr]
      rw [h1]
      exact h1
    | some r =>
      by_cases hpl : (r.placaVeiculo == "") = true
      · have h1 : cancelarLocacao s rid = (Resp.ok, setLocacaoStatus s r.id "cancelada") := by
          simp only [cancelarLocacao, hr]
          rw [if_pos hpl]
        have hr2 : getLocacao (setLocacaoStatus s r.id "cancelada") rid =
            some { r with status := "cancelada" } := by
          rw [getLocacao_setLocacaoStatus, hr]
          simp
        have h2 : cancelarLocacao (setLocacaoStatus s r.id "cancelada") rid =
            (Resp.ok, setLocacaoStatus (setLocacaoStatus s r.id "cancelada")
              ({ r with status := "cancelada" } : Locacao).id "cancelada") := by
          simp only [cancelarLocacao, hr2]
          rw [if_pos (show (({ r with status := "cancelada" } : Locacao).placaVeiculo == "")
            = true from hpl)]
        rw [h1]
        dsimp only
        rw [h2, show ({ r with status := "cancelada" } : Locacao).id = r.id from rfl,
          setLocacaoStatus_idem]
      · cases hveq : getVeiculo (setLocacaoStatus s r.id "cancelada") r.placaVeiculo with
        | some v =>
          have h1 : cancelarLocacao s rid = (Resp.ok,
              setVeiculoDisponivel (setLocacaoStatus s r.id "cancelada") v.placa true) := by
            simp only [cancelarLocacao, hr]
            rw [if_neg hpl]
            simp only [hveq]
          have hr2 : getLocacao (setVeiculoDisponivel (setLocacaoStatus s r.id "cancelada")
              v.placa true) rid = some { r with status := "cancelada" } := by
            rw [getLocacao_eq_of_locacoes_eq (locacoes_setVeiculoDisponivel _ _ _) rid,
              getLocacao_setLocacaoStatus, hr]
            simp
          have hv2 : getVeiculo (setLocacaoStatus
              (setVeiculoDisponivel (setLocacaoStatus s r.id "cancelada") v.placa true)
              ({ r with status := "cancelada" } : Locacao).id "cancelada")
              ({ r with status := "cancelada" } : Locacao).placaVeiculo =
              some { v with disponivel := true } := by
            have he : getVeiculo (setLocacaoStatus
                (setVeiculoDisponivel (setLocacaoStatus s r.id "cancelada") v.placa true)
                ({ r with status := "cancelada" } : Locacao).id "cancelada")
                ({ r with status := "cancelada" } : Locacao).placaVeiculo =
                getVeiculo (setVeiculoDisponivel (setLocacaoStatus s r.id "cancelada")
                  v.placa true) r.placaVeiculo := rfl
            rw [he, getVeiculo_setVeiculoDisponivel, hveq]
            simp
          have h2 : cancelarLocacao (setVeiculoDisponivel
              (setLocacaoStatus s r.id "cancelada") v.placa true) rid =
              (Resp.ok, setVeiculoDisponivel (setLocacaoStatus
                (setVeiculoDisponivel (setLocacaoStatus s r.id "cancelada") v.placa true)
                ({ r with status := "cancelada" } : Locacao).id "cancelada")
                ({ v with disponivel := true } : Veiculo).placa true) := by
            simp only [cancelarLocacao, hr2]
            rw [if_neg (show ¬((({ r with status := "cancelada" } : Locacao).placaVeiculo
              == "") = true) from hpl)]
            simp only [hv2]
          rw [h1]
          dsimp only
          rw [h2]
          have hcomm : setLocacaoStatus
              (setVeiculoDisponivel (setLocacaoStatus s r.id "cancelada") v.placa true)
              ({ r with status := "cancelada" } : Locacao).id "cancelada" =
              setVeiculoDisponivel (setLocacaoStatus (setLocacaoStatus s r.id "cancelada")
                r.id "cancelada") v.placa true := rfl
          rw [hcomm, setLocacaoStatus_idem,
            show ({ v with disponivel := true } : Veiculo).placa = v.placa from rfl,
            setVeiculoDisponivel_idem]
        | none =>
          have h1 : cancelarLocacao s rid =
              (Resp.ok, setLocacaoStatus s r.id "cancelada") := by
            simp only [cancelarLocacao, hr]
            rw [if_neg hpl]
            simp only [hveq]
          have hr2 : getLocacao (setLocacaoStatus s r.id "cancelada") rid =
              some { r with status := "cancelada" } := by
            rw [getLocacao_setLocacaoStatus, hr]
            simp
          have hv2 : getVeiculo (setLocacaoStatus (setLocacaoStatus s r.id "cancelada")
              ({ r with status := "cancelada" } : Locacao).id "cancelada")
              ({ r with status := "cancelada" } : Locacao).placaVeiculo = none := by
            have he : getVeiculo (setLocacaoStatus (setLocacaoStatus s r.id "cancelada")
                ({ r with status := "cancelada" } : Locacao).id "cancelada")
                ({ r with status := "cancelada" } : Locacao).placaVeiculo =
                getVeiculo (setLocacaoStatus s r.id "cancelada") r.placaVeiculo := rfl
            rw [he]
            exact hveq
          have h2 : cancelarLocacao (setLocacaoStatus s r.id "cancelada") rid =
              (Resp.ok, setLocacaoStatus (setLocacaoStatus s r.id "cancelada")
                ({ r with status := "cancelada" } : Locacao).id "cancelada") := by
            simp only [cancelarLocacao, hr2]
            rw [if_neg (show ¬((({ r with status := "cancelada" } : Locacao).placaVeiculo
              == "") = true) from hpl)]
            simp only [hv2]
          rw [h1]
          dsimp only
          rw [h2, show ({ r with status := "cancelada" } : Locacao).id = r.id from rfl,
            setLocacaoStatus_idem]

theorem C6_cancelamento_idempotente_witness :
    ((cancelarLocacao sC6 "L1").1 = Resp.ok ∧
      (getLocacao ((cancelarLocacao sC6 "L1").2) "L1").map Locacao.status =
        some "cancelada") ∧
    cancelarLocacao ((cancelarLocacao sC6 "L1").2) "L1" = cancelarLocacao sC6 "L1" :=
  ⟨(C6_cancelamento_idempotente sC6 "L1").1 lC6 (by decide) rfl,
   (C6_cancelamento_idempotente sC6 "L1").2⟩

/-- C9: rental creation and rental cancellation leave every vehicle's
brand, model, year, daily rate and image URL unchanged — their vehicle-side
writes merge only the `disponivel` flag. -/
theorem C9_atualizacao_parcial_so_disponivel (s : Estado) (inp : LocacaoInput)
    (newId lid placa : String) :
    ((getVeiculo ((criarLocacao s inp newId).2) placa).map camposFixos =
      (getVeiculo s placa).map camposFixos) ∧
    ((getVeiculo ((cancelarLocacao s lid).2) placa).map camposFixos =
      (getVeiculo s placa).map camposFixos) := by
  constructor
  · unfold criarLocacao criarLocacaoComFalha
    split
    · rfl
    · split
      · rfl
      · next s1 hc =>
        obtain ⟨hfresh, rfl⟩ := createLocacao_eq_some hc
        split
        · next v hv =>
          rw [if_pos rfl]
          exact camposFixos_setVeiculoDisponivel _ _ _ _
        · rfl
  · unfold cancelarLocacao
    split
    · rfl
    · next r hr =>
      split
      · rfl
      · split
        · next v hv =>
          exact camposFixos_setVeiculoDisponivel _ _ _ _
        · rfl

end Locadora
